import Mathlib

/-
Shallow embedding of src/src/bci/brain_interface.py (class BrainInterface).

Conventions:
- Python floats are modelled as exact rationals (all float literals in the
  source are exactly representable); np.std needs a square root, so the
  standard deviation and z-scores live in the reals.
- The numpy buffers raw_buffer[0, :], filtered_buffer[0, :] and timestamps
  (single channel) are modelled as total maps from slot index to value; every
  access in the source goes through an index reduced mod BUFFER_SIZE.
- scipy.signal.lfilter for a single sample is modelled by the standard
  transposed direct-form-II difference equation with normalized a[0] = 1 (the
  form the library documents); scipy.signal.lfilter_zi returns a fixed vector
  determined by the coefficients at setup time, so it is carried as part of
  the configuration (fields bp_zi / notch_zi) - no claim depends on its value.
- The serial transport is out of scope: one loop iteration of _stream_data is
  modelled as a step taking an already decoded line, where parse failure
  (ValueError / UnicodeDecodeError in the source) is the none case.
-/

/-- Constant SAMPLE_RATE = 250 from brain_interface.py line 18. -/
def SAMPLE_RATE : Nat := 250

/-- Constant BUFFER_SIZE = 250 * 5 from brain_interface.py line 20. -/
def BUFFER_SIZE : Nat := 250 * 5

/-- The mutable attributes of class BrainInterface that the claims concern
(set up in __init__, lines 27-62), plus the filter coefficient/initial-state
vectors computed once in _setup_filters (lines 64-73). -/
structure BrainInterface where
  raw_buffer : Nat → ℚ
  filtered_buffer : Nat → ℚ
  timestamps : Nat → ℚ
  event_timestamps : List ℚ
  running : Bool
  streaming : Bool
  filter_state : Option (List ℚ)
  notch_state : Option (List ℚ)
  current_sample_idx : Nat
  start_time : ℚ
  event_count : Nat
  last_event_time : ℚ
  cooldown_period : ℚ
  detection_threshold : ℚ
  window_size : Nat
  bp_filter_b : List ℚ
  bp_filter_a : List ℚ
  bp_zi : List ℚ
  notch_b : List ℚ
  notch_a : List ℚ
  notch_zi : List ℚ

/-- The state built by __init__ (lines 35-52): zeroed buffers and counters,
cooldown 0.5 s, z-score threshold 50.0, detection window of 50 samples, no
filter state yet.  The coefficient vectors are whatever the design routine
produced in _setup_filters. -/
def initial_state (bp_b bp_a bp_zi n_b n_a n_zi : List ℚ) : BrainInterface where
  raw_buffer := fun _ => 0
  filtered_buffer := fun _ => 0
  timestamps := fun _ => 0
  event_timestamps := []
  running := false
  streaming := false
  filter_state := none
  notch_state := none
  current_sample_idx := 0
  start_time := 0
  event_count := 0
  last_event_time := 0
  cooldown_period := 1/2
  detection_threshold := 50
  window_size := 50
  bp_filter_b := bp_b
  bp_filter_a := bp_a
  bp_zi := bp_zi
  notch_b := n_b
  notch_a := n_a
  notch_zi := n_zi

/-- One step of scipy.signal.lfilter (transposed direct form II, a[0]
normalized to 1): output y = b0*x + z0, and the delay line advances by
z_i' = b_(i+1)*x - a_(i+1)*y + z_(i+1) (coefficients beyond the end count
as 0). -/
def lfilter_step (b a z : List ℚ) (x : ℚ) : ℚ × List ℚ :=
  let y := b.headD 0 * x + z.headD 0
  (y, (List.range z.length).map
        (fun i => b.getD (i + 1) 0 * x - a.getD (i + 1) 0 * y + z.getD (i + 1) 0))

/-- The bandpass stage of one _stream_data iteration (lines 153-163): on the
first call (filter_state is None) the initial conditions are lfilter_zi
scaled by the current sample; afterwards the stored filter_state is used. -/
def bandpass_apply (s : BrainInterface) (x : ℚ) : ℚ × List ℚ :=
  match s.filter_state with
  | none => lfilter_step s.bp_filter_b s.bp_filter_a (s.bp_zi.map (fun c => c * x)) x
  | some z => lfilter_step s.bp_filter_b s.bp_filter_a z x

/-- The notch stage of one _stream_data iteration (lines 165-170).  The
source's conditional expression: when notch_state is absent (first sample)
the bandpass output passes through unchanged and notch_state is set to
lfilter_zi scaled by it; when notch_state is present, lfilter runs with
initial conditions recomputed as lfilter_zi scaled by the CURRENT bandpass
output - the stored notch_state is not read. -/
def notch_apply (s : BrainInterface) (y : ℚ) : ℚ × List ℚ :=
  match s.notch_state with
  | none => (y, s.notch_zi.map (fun c => c * y))
  | some _ => lfilter_step s.notch_b s.notch_a (s.notch_zi.map (fun c => c * y)) y

/-- The 24-bit sign decoding of _stream_data lines 144-146: if sample >
0x800000 then sample - 0x1000000 else sample. -/
def decode_signed24 (v : Int) : Int :=
  if v > 0x800000 then v - 0x1000000 else v

/-- A circular-buffer write: the sample with sequence number seq goes to slot
seq mod BUFFER_SIZE (lines 148-151). -/
def write_sample (buf : Nat → ℚ) (seq : Nat) (v : ℚ) : Nat → ℚ :=
  Function.update buf (seq % BUFFER_SIZE) v

/-- The window indices of _detect_neural_event lines 190-191:
[(current_idx - i) % BUFFER_SIZE for i in range(window_size)], with Python's
nonnegative remainder on possibly negative differences. -/
def window_indices (current_idx window_size : Nat) : List Nat :=
  (List.range window_size).map
    (fun i => (((current_idx : Int) - (i : Int)) % (BUFFER_SIZE : Int)).toNat)

/-- window_data of _detect_neural_event line 192: the trailing window of
filtered samples ending at the given slot. -/
def window_data (s : BrainInterface) (current_idx : Nat) : List ℚ :=
  (window_indices current_idx s.window_size).map s.filtered_buffer

/-- np.mean: sum divided by length. -/
def np_mean (w : List ℚ) : ℚ := w.sum / w.length

/-- Population variance: np.mean of squared deviations from np.mean. -/
def np_variance (w : List ℚ) : ℚ :=
  (w.map (fun x => (x - np_mean w) ^ 2)).sum / w.length

/-- np.std: the square root of the population variance. -/
noncomputable def np_std (w : List ℚ) : ℝ :=
  Real.sqrt ((np_variance w : ℚ) : ℝ)

/-- z_scores of line 196: (window_data - np.mean(window_data)) / np.std(window_data). -/
noncomputable def z_scores (w : List ℚ) : List ℝ :=
  w.map (fun x : ℚ => ((x : ℝ) - ((np_mean w : ℚ) : ℝ)) / np_std w)

/-- max_z of line 197: np.max(np.abs(z_scores)).  The fold base 0 is inert:
the window is nonempty in every use and absolute values are nonnegative. -/
noncomputable def max_abs_z (w : List ℚ) : ℝ :=
  ((z_scores w).map (fun z => |z|)).foldr max 0

/- _detect_neural_event (lines 187-216).  The std > 0 guard, then the event
test max_z > detection_threshold and now - last_event_time > cooldown_period;
on firing event_count increments, now is appended to event_timestamps and
last_event_time becomes now.  The print and the optional callback notify no
engine state. -/
open Classical in
noncomputable def detect_neural_event (s : BrainInterface) (current_idx : Nat) (now : ℚ) :
    BrainInterface :=
  if np_std (window_data s current_idx) > 0 then
    if max_abs_z (window_data s current_idx) > ((s.detection_threshold : ℚ) : ℝ)
        ∧ now - s.last_event_time > s.cooldown_period then
      { s with event_count := s.event_count + 1,
               event_timestamps := s.event_timestamps ++ [now],
               last_event_time := now }
    else s
  else s

/-- One iteration of the _stream_data loop body (lines 138-185) on a line
already read from the transport: none models a ValueError/UnicodeDecodeError
(the except branch only prints and leaves all state alone); some v is the
parsed integer.  On success: sign decode, raw-buffer and timestamp writes at
slot current_sample_idx mod BUFFER_SIZE, bandpass then notch, filtered-buffer
write, detection once current_sample_idx >= window_size, then the counter
increments. -/
noncomputable def stream_step (s : BrainInterface) (line : Option Int) (now : ℚ) :
    BrainInterface :=
  match line with
  | none => s
  | some v =>
    let sample : ℚ := ((decode_signed24 v : Int) : ℚ)
    let buffer_idx := s.current_sample_idx % BUFFER_SIZE
    let bp := bandpass_apply s sample
    let nt := notch_apply s bp.1
    let s1 : BrainInterface :=
      { s with raw_buffer := write_sample s.raw_buffer s.current_sample_idx sample,
               timestamps := write_sample s.timestamps s.current_sample_idx now,
               filter_state := some bp.2,
               notch_state := some nt.2,
               filtered_buffer := write_sample s.filtered_buffer s.current_sample_idx nt.1 }
    let s2 := if s.window_size ≤ s.current_sample_idx
              then detect_neural_event s1 buffer_idx now else s1
    { s2 with current_sample_idx := s2.current_sample_idx + 1 }

/-- Folding stream_step over a list of (line, arrival time) pairs: the
acquisition loop run on a finite input sequence. -/
noncomputable def run_stream (s : BrainInterface) (lines : List (Option Int × ℚ)) :
    BrainInterface :=
  lines.foldl (fun st p => stream_step st p.1 p.2) s

/-- Folding detect_neural_event over a list of (slot index, wall-clock time)
evaluations: a sequence of detector evaluations within one stream. -/
noncomputable def run_detect (s : BrainInterface) (evals : List (Nat × ℚ)) :
    BrainInterface :=
  evals.foldl (fun st e => detect_neural_event st e.1 e.2) s

/-- start_stream (lines 111-129), on the success path of connect: streaming
on, start_time recorded, and current_sample_idx, event_count and
event_timestamps all reset. -/
def start_stream (s : BrainInterface) (now : ℚ) : BrainInterface :=
  { s with running := true, streaming := true, start_time := now,
           current_sample_idx := 0, event_count := 0, event_timestamps := [] }

/-- stop_stream (lines 131-134): only the streaming flag changes. -/
def stop_stream (s : BrainInterface) : BrainInterface :=
  { s with streaming := false }

/-- The calibration-data extraction of calibrate (lines 241-251): if more
samples arrived than the buffer holds, the whole filtered buffer; otherwise
the slots i mod BUFFER_SIZE for i in range(cal_start_idx, cal_end_idx). -/
def calibration_data (s : BrainInterface) (cal_start_idx cal_end_idx : Nat) : List ℚ :=
  if BUFFER_SIZE < cal_end_idx - cal_start_idx then
    (List.range BUFFER_SIZE).map s.filtered_buffer
  else
    ((List.range (cal_end_idx - cal_start_idx)).map
      (fun i => (cal_start_idx + i) % BUFFER_SIZE)).map s.filtered_buffer

/-- The decision part of calibrate (lines 252-272), parametrized by the
counter values observed at the start and end of the timed wait.  When
len(calibration_data) > SAMPLE_RATE the detection threshold becomes the fixed
policy value 5.0 and the computed baseline statistics (np.mean, np.std, the
new threshold) are reported; otherwise nothing changes and no statistics are
produced (the not-enough-data branch). -/
noncomputable def calibrate (s : BrainInterface) (cal_start_idx cal_end_idx : Nat) :
    BrainInterface × Option (ℚ × ℝ × ℚ) :=
  let data := calibration_data s cal_start_idx cal_end_idx
  if SAMPLE_RATE < data.length then
    ({ s with detection_threshold := 5 },
     some (np_mean data, np_std data, 5))
  else (s, none)

/-- The chronological read order of save_data (lines 349-362) and plot_data:
all slots 0..n-1 while the buffer has not filled, else the BUFFER_SIZE slots
starting from position n mod BUFFER_SIZE, wrapping around. -/
def chronological_indices (current_sample_idx : Nat) : List Nat :=
  if current_sample_idx < BUFFER_SIZE then
    List.range current_sample_idx
  else
    (List.range BUFFER_SIZE).map
      (fun i => (current_sample_idx % BUFFER_SIZE + i) % BUFFER_SIZE)

/-- Repeated circular-buffer writes: the samples of xs get consecutive
sequence numbers starting at start_seq, each stored by write_sample. -/
def build_buffer (init : Nat → ℚ) (xs : List ℚ) (start_seq : Nat) : Nat → ℚ :=
  match xs with
  | [] => init
  | x :: rest => build_buffer (write_sample init start_seq x) rest (start_seq + 1)

/- ------------------------------------------------------------------ -/
/- Helper lemmas about the detector step.                             -/
/- ------------------------------------------------------------------ -/

/-- Case analysis of one detector evaluation: either the state is unchanged,
or it fired, in which case the guard and both event conditions held. -/
lemma detect_cases (s : BrainInterface) (i : Nat) (n : ℚ) :
    detect_neural_event s i n = s ∨
    (detect_neural_event s i n
        = { s with event_count := s.event_count + 1,
                   event_timestamps := s.event_timestamps ++ [n],
                   last_event_time := n }
      ∧ np_std (window_data s i) > 0
      ∧ max_abs_z (window_data s i) > ((s.detection_threshold : ℚ) : ℝ)
      ∧ n - s.last_event_time > s.cooldown_period) := by
  unfold detect_neural_event
  split_ifs with h1 h2
  · exact Or.inr ⟨rfl, h1, h2.1, h2.2⟩
  · exact Or.inl rfl
  · exact Or.inl rfl

lemma detect_raw_buffer (s : BrainInterface) (i : Nat) (n : ℚ) :
    (detect_neural_event s i n).raw_buffer = s.raw_buffer := by
  rcases detect_cases s i n with h | ⟨h, _⟩ <;> rw [h]

lemma detect_filtered_buffer (s : BrainInterface) (i : Nat) (n : ℚ) :
    (detect_neural_event s i n).filtered_buffer = s.filtered_buffer := by
  rcases detect_cases s i n with h | ⟨h, _⟩ <;> rw [h]

lemma detect_current_sample_idx (s : BrainInterface) (i : Nat) (n : ℚ) :
    (detect_neural_event s i n).current_sample_idx = s.current_sample_idx := by
  rcases detect_cases s i n with h | ⟨h, _⟩ <;> rw [h]

lemma detect_cooldown_period (s : BrainInterface) (i : Nat) (n : ℚ) :
    (detect_neural_event s i n).cooldown_period = s.cooldown_period := by
  rcases detect_cases s i n with h | ⟨h, _⟩ <;> rw [h]

lemma detect_filter_state (s : BrainInterface) (i : Nat) (n : ℚ) :
    (detect_neural_event s i n).filter_state = s.filter_state := by
  rcases detect_cases s i n with h | ⟨h, _⟩ <;> rw [h]

/- ------------------------------------------------------------------ -/
/- Claim C1.                                                          -/
/- ------------------------------------------------------------------ -/

/-- Claim C1: for a detector evaluation whose window of filtered samples has
positive population standard deviation, an event fires (the event count
increments by one) if and only if the maximum absolute z-score over the
window exceeds the detection threshold and the current time minus
last_event_time exceeds the cooldown period; and on firing the current time
is appended to the event log and last_event_time is set to the current
time. -/
theorem detect_event_fires_iff (s : BrainInterface) (i : Nat) (now : ℚ)
    (h : np_std (window_data s i) > 0) :
    ((detect_neural_event s i now).event_count = s.event_count + 1
      ↔ max_abs_z (window_data s i) > ((s.detection_threshold : ℚ) : ℝ)
          ∧ now - s.last_event_time > s.cooldown_period)
    ∧ (max_abs_z (window_data s i) > ((s.detection_threshold : ℚ) : ℝ)
          ∧ now - s.last_event_time > s.cooldown_period →
        (detect_neural_event s i now).event_timestamps = s.event_timestamps ++ [now]
        ∧ (detect_neural_event s i now).last_event_time = now) := by
  unfold detect_neural_event
  rw [if_pos h]
  refine ⟨⟨?_, ?_⟩, ?_⟩
  · intro hc
    by_contra hnc
    rw [if_neg hnc] at hc
    omega
  · intro hc
    rw [if_pos hc]
  · intro hc
    rw [if_pos hc]
    exact ⟨rfl, rfl⟩

/-- A concrete engine state for the C1 witness: the two filtered samples at
slots 0 and 1 are 0 and 2, the detection window is 2 samples, the threshold
is 1/2. -/
def wstate1 : BrainInterface :=
  { initial_state [] [] [] [] [] [] with
      filtered_buffer := fun i => if i = 1 then 2 else 0,
      window_size := 2,
      detection_threshold := 1/2 }

/-- Witness for C1: at wstate1 the window is [2, 0] with standard deviation
1 and maximum absolute z-score 1 > 1/2, the cooldown 10 - 0 > 1/2 holds, and
the detector fires, incrementing the count. -/
theorem detect_event_fires_iff_witness :
    (detect_neural_event wstate1 1 10).event_count = wstate1.event_count + 1 := by
  have hw : window_data wstate1 1 = [2, 0] := by decide
  have hm : np_mean ([2, 0] : List ℚ) = 1 := by
    norm_num [np_mean, List.sum_cons, List.sum_nil]
  have hvar : np_variance ([2, 0] : List ℚ) = 1 := by
    norm_num [np_variance, hm, List.sum_cons, List.sum_nil]
  have hstd : np_std ([2, 0] : List ℚ) = 1 := by
    unfold np_std
    rw [hvar, Rat.cast_one, Real.sqrt_one]
  have hstdpos : np_std (window_data wstate1 1) > 0 := by
    rw [hw, hstd]
    norm_num
  have hmax : max_abs_z (window_data wstate1 1) = 1 := by
    unfold max_abs_z z_scores
    rw [hw, hm, hstd]
    simp only [List.map_cons, List.map_nil, List.foldr_cons, List.foldr_nil]
    norm_num
  have hthr : wstate1.detection_threshold = 1/2 := rfl
  have hlet : wstate1.last_event_time = 0 := rfl
  have hcool : wstate1.cooldown_period = 1/2 := rfl
  refine (detect_event_fires_iff wstate1 1 10 hstdpos).1.mpr ⟨?_, ?_⟩
  · rw [hmax, hthr]
    norm_num
  · rw [hlet, hcool]
    norm_num

/- ------------------------------------------------------------------ -/
/- Claim C2.                                                          -/
/- ------------------------------------------------------------------ -/

/-- Detector-history invariant: the cooldown equals c, consecutive logged
event times are separated by more than c, and the last logged time is at
most last_event_time. -/
def DetectorInv (c : ℚ) (s : BrainInterface) : Prop :=
  s.cooldown_period = c
  ∧ List.Chain' (fun a b => c < b - a) s.event_timestamps
  ∧ ∀ t : ℚ, s.event_timestamps.getLast? = some t → t ≤ s.last_event_time

lemma detect_preserves_inv (c : ℚ) (s : BrainInterface) (i : Nat) (n : ℚ)
    (h : DetectorInv c s) : DetectorInv c (detect_neural_event s i n) := by
  obtain ⟨hc, hchain, hlast⟩ := h
  rcases detect_cases s i n with heq | ⟨heq, _, _, hcool⟩
  · rw [heq]
    exact ⟨hc, hchain, hlast⟩
  · rw [heq]
    refine ⟨hc, ?_, ?_⟩
    · rw [List.chain'_append]
      refine ⟨hchain, List.chain'_singleton n, ?_⟩
      intro x hx y hy
      simp only [List.head?_cons, Option.mem_def, Option.some.injEq] at hy
      subst hy
      have hx' : x ≤ s.last_event_time := hlast x hx
      rw [hc] at hcool
      linarith
    · intro t ht
      rw [List.getLast?_concat] at ht
      injection ht with ht
      subst ht
      exact le_refl _

lemma run_detect_preserves_inv (c : ℚ) (evals : List (Nat × ℚ)) (s : BrainInterface)
    (h : DetectorInv c s) : DetectorInv c (run_detect s evals) := by
  induction evals generalizing s with
  | nil => exact h
  | cons e rest ih =>
    exact ih (detect_neural_event s e.1 e.2) (detect_preserves_inv c s e.1 e.2 h)

/-- Claim C2: within one stream (the event log starts empty), for any finite
sequence of detector evaluations, any two logged event times are separated by
more than the cooldown (assuming the nonnegative cooldown of the source,
0.5 s); and an evaluation whose window has exactly zero standard deviation
leaves the detector state unchanged - it never fires. -/
theorem detect_cooldown_separation (s st : BrainInterface) (evals : List (Nat × ℚ))
    (i : Nat) (now : ℚ)
    (hc : 0 ≤ s.cooldown_period) (he : s.event_timestamps = [])
    (hz : np_std (window_data st i) = 0) :
    List.Pairwise (fun a b => s.cooldown_period < b - a)
      ((run_detect s evals).event_timestamps)
    ∧ detect_neural_event st i now = st := by
  constructor
  · have hinv : DetectorInv s.cooldown_period s := by
      refine ⟨rfl, ?_, ?_⟩
      · rw [he]
        exact List.chain'_nil
      · rw [he]
        intro t ht
        simp at ht
    have hrun := run_detect_preserves_inv s.cooldown_period evals s hinv
    obtain ⟨_, hchain, _⟩ := hrun
    haveI : IsTrans ℚ (fun a b => s.cooldown_period < b - a) := by
      constructor
      intro a b d hab hbd
      simp only at *
      linarith
    exact List.chain'_iff_pairwise.mp hchain
  · rcases detect_cases st i now with heq | ⟨_, hpos, _⟩
    · exact heq
    · rw [hz] at hpos
      exact absurd hpos (lt_irrefl 0)

/-- A concrete second engine state for the C2 witness, with a constant
(all-zero) filtered window. -/
def wstate2 : BrainInterface := initial_state [] [] [] [] [] []

/-- Witness for C2: the fresh engine state has cooldown 1/2 ≥ 0 and an empty
event log, and the all-zero window has standard deviation exactly 0, so an
evaluation on it leaves the state unchanged. -/
theorem detect_cooldown_separation_witness :
    detect_neural_event wstate2 0 10 = wstate2 := by
  have hvar : np_variance (window_data wstate2 0) = 0 := by
    have hw : window_data wstate2 0 = List.replicate 50 0 := by decide
    rw [hw]
    have hm : np_mean (List.replicate 50 (0 : ℚ)) = 0 := by
      norm_num [np_mean, List.sum_replicate]
    norm_num [np_variance, hm, List.sum_replicate, List.map_replicate]
  have hz : np_std (window_data wstate2 0) = 0 := by
    unfold np_std
    rw [hvar, Rat.cast_zero, Real.sqrt_zero]
  exact (detect_cooldown_separation wstate2 wstate2 [] 0 10
    (by norm_num [wstate2, initial_state]) rfl hz).2

/- ------------------------------------------------------------------ -/
/- Claims C3, C9: lifecycle and the sample counter.                   -/
/- ------------------------------------------------------------------ -/

/-- Amended claim C3: the sample counter increases by exactly one per
successfully ingested sample and is untouched by a malformed one, but it is
NOT globally monotonic across the process lifetime: start_stream (also after
stop_stream) resets it to 0. -/
theorem sample_counter_per_stream (s : BrainInterface) (v : Int) (t t' : ℚ) :
    (stream_step s (some v) t).current_sample_idx = s.current_sample_idx + 1
    ∧ (stream_step s none t).current_sample_idx = s.current_sample_idx
    ∧ (start_stream (stop_stream s) t').current_sample_idx = 0 := by
  refine ⟨?_, rfl, rfl⟩
  simp only [stream_step]
  split
  · rw [detect_current_sample_idx]
  · rfl

/-- A state mid-stream: five samples already ingested. -/
def wstate3 : BrainInterface :=
  { initial_state [] [] [] [] [] [] with current_sample_idx := 5 }

/-- Counterexample to claim C3 as stated: the sample counter (5 at wstate3)
is reset to 0 by stop_stream followed by start_stream, so it is not globally
monotonic across the process lifetime. -/
theorem sample_counter_reset_counterexample :
    wstate3.current_sample_idx = 5
    ∧ (start_stream (stop_stream wstate3) 0).current_sample_idx = 0 :=
  ⟨rfl, rfl⟩

/-- Claim C9: stop_stream modifies no counters, log entries or buffered
samples (a read between stop and start observes the pre-stop event count,
event log and buffers unchanged), while stop_stream followed by start_stream
resets the event count to 0 and clears the event log. -/
theorem stop_start_reset_semantics (s : BrainInterface) (t : ℚ) :
    (stop_stream s).event_count = s.event_count
    ∧ (stop_stream s).event_timestamps = s.event_timestamps
    ∧ (stop_stream s).raw_buffer = s.raw_buffer
    ∧ (stop_stream s).filtered_buffer = s.filtered_buffer
    ∧ (stop_stream s).timestamps = s.timestamps
    ∧ (stop_stream s).current_sample_idx = s.current_sample_idx
    ∧ (start_stream (stop_stream s) t).event_count = 0
    ∧ (start_stream (stop_stream s) t).event_timestamps = [] :=
  ⟨rfl, rfl, rfl, rfl, rfl, rfl, rfl, rfl⟩

/- ------------------------------------------------------------------ -/
/- Claim C8: malformed samples are dropped, acquisition continues.    -/
/- ------------------------------------------------------------------ -/

/-- Claim C8: a sample that fails to decode or parse leaves the entire
engine state unchanged (no buffer write, no filter-state update, no counter
increment, no detector evaluation), and the loop then processes the
remaining input exactly as if the malformed sample had never arrived. -/
theorem malformed_sample_skipped (s : BrainInterface) (t : ℚ)
    (rest : List (Option Int × ℚ)) :
    stream_step s none t = s
    ∧ run_stream s ((none, t) :: rest) = run_stream s rest :=
  ⟨rfl, rfl⟩

/- ------------------------------------------------------------------ -/
/- Claim C10: 24-bit sign decoding before storage.                    -/
/- ------------------------------------------------------------------ -/

/-- Claim C10: for a successfully parsed raw value v, the value stored in the
raw buffer (at slot current_sample_idx mod BUFFER_SIZE) is v - 0x1000000
when v > 0x800000 and v unchanged otherwise. -/
theorem raw_buffer_sign_decode (s : BrainInterface) (v : Int) (t : ℚ) :
    (stream_step s (some v) t).raw_buffer (s.current_sample_idx % BUFFER_SIZE)
      = ((if v > 0x800000 then v - 0x1000000 else v : Int) : ℚ) := by
  simp only [stream_step]
  split
  · rw [detect_raw_buffer]
    simp [write_sample, decode_signed24]
  · simp [write_sample, decode_signed24]

/- ------------------------------------------------------------------ -/
/- Claim C4: the notch stage's stored state is never read.            -/
/- ------------------------------------------------------------------ -/

/-- Two states identical except for the stored notch delay line. -/
def wstateA : BrainInterface :=
  { initial_state [1] [1] [] [1, 0, 1] [1, 0, 1] [0, 0] with notch_state := some [1] }

/-- Same as wstateA but with a different stored notch delay line. -/
def wstateB : BrainInterface :=
  { initial_state [1] [1] [] [1, 0, 1] [1, 0, 1] [0, 0] with notch_state := some [2] }

/-- Claim C4, what the code actually does: once notch_state is present, the
notch stage's output and new state are computed from initial conditions
rebuilt from the CURRENT bandpass output (lfilter_zi scaled by it); the
stored delay line is never read.  Concretely, two streams whose states
differ only in the stored notch state produce identical results from the
next ingestion step, so the persistent notch state is dead - refuting the
claim that each stage's per-sample output depends on the state left by the
previous call. -/
theorem notch_state_never_read (s : BrainInterface) (w w' : List ℚ) (y : ℚ) :
    notch_apply { s with notch_state := some w } y
      = notch_apply { s with notch_state := some w' } y
    ∧ notch_apply { s with notch_state := some w } y
      = lfilter_step s.notch_b s.notch_a (s.notch_zi.map (fun c => c * y)) y
    ∧ wstateA.notch_state ≠ wstateB.notch_state
    ∧ stream_step wstateA (some 7) 3 = stream_step wstateB (some 7) 3 :=
  ⟨rfl, rfl, by decide, rfl⟩

/- ------------------------------------------------------------------ -/
/- Claim C5: circular-buffer slots and chronological reads.           -/
/- ------------------------------------------------------------------ -/

lemma build_buffer_append (init : Nat → ℚ) (xs : List ℚ) (x : ℚ) (k : Nat) :
    build_buffer init (xs ++ [x]) k
      = write_sample (build_buffer init xs k) (k + xs.length) x := by
  induction xs generalizing init k with
  | nil => simp [build_buffer]
  | cons y ys ih =>
    show build_buffer (write_sample init k y) (ys ++ [x]) (k + 1)
        = write_sample (build_buffer (write_sample init k y) ys (k + 1))
            (k + (y :: ys).length) x
    rw [ih]
    have : k + 1 + ys.length = k + (y :: ys).length := by
      simp only [List.length_cons]
      omega
    rw [this]

lemma mod_ne_of_between (a b : Nat) (h1 : a < b) (h2 : b < a + BUFFER_SIZE) :
    a % BUFFER_SIZE ≠ b % BUFFER_SIZE := by
  intro h
  have hd : BUFFER_SIZE ∣ b - a := (Nat.modEq_iff_dvd' h1.le).mp h
  have hle : BUFFER_SIZE ≤ b - a := Nat.le_of_dvd (by omega) hd
  have : BUFFER_SIZE = 1250 := by norm_num [BUFFER_SIZE]
  omega

/-- The slot invariant: after writing the samples of xs at consecutive
sequence numbers 0, 1, ..., the slot s mod BUFFER_SIZE holds the sample of
sequence s, for every s among the BUFFER_SIZE most recent sequences. -/
lemma build_buffer_get (init : Nat → ℚ) (xs : List ℚ) (s : Nat)
    (h1 : s < xs.length) (h2 : xs.length ≤ s + BUFFER_SIZE) :
    build_buffer init xs 0 (s % BUFFER_SIZE) = xs.getD s 0 := by
  induction xs using List.reverseRecOn generalizing s with
  | nil => simp at h1
  | append_singleton ys x ih =>
    rw [build_buffer_append]
    rw [List.length_append, List.length_singleton] at h1 h2
    rcases Nat.lt_or_ge s ys.length with hs | hs
    · have hne : s % BUFFER_SIZE ≠ (0 + ys.length) % BUFFER_SIZE := by
        rw [Nat.zero_add]
        exact mod_ne_of_between s ys.length hs (by omega)
      rw [write_sample, Function.update_noteq hne]
      rw [ih s hs (by omega)]
      rw [List.getD_append _ _ _ _ hs]
    · have hs' : s = ys.length := by omega
      subst hs'
      rw [write_sample, Nat.zero_add, Function.update_same]
      rw [List.getD_append_right _ _ _ _ (le_refl _), Nat.sub_self]
      rfl

/-- Claim C5: the sample of sequence s is stored at slot s mod BUFFER_SIZE,
and the chronological read of save_data returns the samples oldest-first:
all of them while fewer than BUFFER_SIZE have been written, and exactly the
BUFFER_SIZE most recent ones afterwards (drop of all older samples). -/
theorem buffer_slot_and_chronological_read (init : Nat → ℚ) (xs : List ℚ) (s : Nat)
    (h1 : s < xs.length) (h2 : xs.length ≤ s + BUFFER_SIZE) :
    build_buffer init xs 0 (s % BUFFER_SIZE) = xs.getD s 0
    ∧ (chronological_indices xs.length).map (build_buffer init xs 0)
        = xs.drop (xs.length - BUFFER_SIZE) := by
  refine ⟨build_buffer_get init xs s h1 h2, ?_⟩
  unfold chronological_indices
  split_ifs with hlt
  · -- fewer than BUFFER_SIZE samples: all of them, in slot order 0..n-1
    have hdrop : xs.length - BUFFER_SIZE = 0 := by omega
    rw [hdrop, List.drop_zero]
    apply List.ext_getElem
    · simp
    · intro i hi1 hi2
      simp only [List.getElem_map, List.getElem_range]
      have hi : i < xs.length := by simpa using hi1
      have hmod : i % BUFFER_SIZE = i := Nat.mod_eq_of_lt (by omega)
      have hval := build_buffer_get init xs i hi (by omega)
      rw [hmod] at hval
      rw [hval, List.getD_eq_getElem _ _ hi]
  · -- the buffer has filled: the BUFFER_SIZE most recent, oldest first
    have hge : BUFFER_SIZE ≤ xs.length := by omega
    apply List.ext_getElem
    · simp only [List.length_map, List.length_range, List.length_drop]
      omega
    · intro i hi1 hi2
      have hiB : i < BUFFER_SIZE := by simpa using hi1
      simp only [List.getElem_map, List.getElem_range]
      have hidx : (xs.length % BUFFER_SIZE + i) % BUFFER_SIZE
          = (xs.length - BUFFER_SIZE + i) % BUFFER_SIZE := by
        conv_lhs => rw [Nat.mod_add_mod]
        conv_rhs => rw [← Nat.add_mod_right]
        congr 1
        omega
      rw [hidx]
      rw [build_buffer_get init xs (xs.length - BUFFER_SIZE + i) (by omega) (by omega)]
      rw [List.getD_eq_getElem _ _ (by omega : xs.length - BUFFER_SIZE + i < xs.length)]
      rw [List.getElem_drop]

/-- Witness for C5: writing 1, 2, 3 into a fresh buffer stores sample 2 at
slot 2 and the chronological read returns [1, 2, 3]. -/
theorem buffer_slot_and_chronological_read_witness :
    build_buffer (fun _ => 0) [1, 2, 3] 0 (2 % BUFFER_SIZE) = ([1, 2, 3] : List ℚ).getD 2 0
    ∧ (chronological_indices ([1, 2, 3] : List ℚ).length).map
        (build_buffer (fun _ => 0) [1, 2, 3] 0)
        = ([1, 2, 3] : List ℚ).drop (([1, 2, 3] : List ℚ).length - BUFFER_SIZE) :=
  buffer_slot_and_chronological_read (fun _ => 0) [1, 2, 3] 2 (by norm_num)
    (by norm_num [BUFFER_SIZE])

/- ------------------------------------------------------------------ -/
/- Claims C6, C7: calibration.                                        -/
/- ------------------------------------------------------------------ -/

/-- A fresh engine state for the calibration claims. -/
def wstate6 : BrainInterface := initial_state [] [] [] [] [] []

/-- Counterexample to claim C6 as stated: a calibration run that collects
exactly SAMPLE_RATE samples - exactly one full second at the configured
rate - does NOT succeed: the source requires strictly more, so this run
takes the not-enough-data branch and leaves the engine (threshold 50)
unchanged. -/
theorem calibrate_exact_second_counterexample :
    (calibration_data wstate6 0 250).length = SAMPLE_RATE
    ∧ calibrate wstate6 0 250 = (wstate6, none)
    ∧ wstate6.detection_threshold = 50 := by
  have hlen : (calibration_data wstate6 0 250).length = SAMPLE_RATE := by
    unfold calibration_data
    rw [if_neg (by decide)]
    simp [SAMPLE_RATE]
  refine ⟨hlen, ?_, rfl⟩
  simp only [calibrate]
  rw [hlen, if_neg (lt_irrefl SAMPLE_RATE)]

/-- Amended claim C6: a calibration run succeeds (the threshold is updated
and baseline statistics are produced) iff it collects STRICTLY more than
SAMPLE_RATE samples; with SAMPLE_RATE samples or fewer it fails with
insufficient data, produces no statistics, and the engine state - in
particular the detection threshold - is exactly unchanged. -/
theorem calibrate_success_boundary (s : BrainInterface) (a b : Nat) :
    (SAMPLE_RATE < (calibration_data s a b).length →
      (calibrate s a b).1.detection_threshold = 5
      ∧ ((calibrate s a b).2).isSome = true)
    ∧ ((calibration_data s a b).length ≤ SAMPLE_RATE →
      (calibrate s a b).1 = s ∧ (calibrate s a b).2 = none) := by
  constructor
  · intro h
    simp only [calibrate]
    rw [if_pos h]
    exact ⟨rfl, rfl⟩
  · intro h
    simp only [calibrate]
    rw [if_neg (by omega)]
    exact ⟨rfl, rfl⟩

/-- Witness for the amended C6: collecting 251 samples (more than one
second) succeeds and sets the threshold to 5. -/
theorem calibrate_success_boundary_witness :
    (calibrate wstate6 0 251).1.detection_threshold = 5
    ∧ ((calibrate wstate6 0 251).2).isSome = true :=
  (calibrate_success_boundary wstate6 0 251).1 (by
    unfold calibration_data
    rw [if_neg (by decide)]
    simp [SAMPLE_RATE])

/-- Claim C7: on a successful calibration run the reported baseline
statistics are the np mean and np standard deviation of the collected
filtered samples, the new threshold is the fixed policy constant 5.0
independent of those statistics, and a subsequent detector evaluation on the
calibrated engine compares against the new threshold: if it fires, the
window's maximum absolute z-score exceeded 5. -/
theorem calibrate_policy_threshold (s : BrainInterface) (a b i : Nat) (now : ℚ)
    (hsucc : SAMPLE_RATE < (calibration_data s a b).length) :
    (calibrate s a b).2
        = some (np_mean (calibration_data s a b), np_std (calibration_data s a b), 5)
    ∧ (calibrate s a b).1.detection_threshold = 5
    ∧ ((detect_neural_event (calibrate s a b).1 i now).event_count
          = (calibrate s a b).1.event_count + 1
        → max_abs_z (window_data (calibrate s a b).1 i) > (5 : ℝ)) := by
  have hcal : calibrate s a b
      = ({ s with detection_threshold := 5 },
         some (np_mean (calibration_data s a b), np_std (calibration_data s a b), 5)) := by
    simp only [calibrate]
    rw [if_pos hsucc]
  refine ⟨by rw [hcal], by rw [hcal], ?_⟩
  intro hfire
  rcases detect_cases (calibrate s a b).1 i now with heq | ⟨_, _, hmax, _⟩
  · rw [heq] at hfire
    omega
  · have hthr : (calibrate s a b).1.detection_threshold = 5 := by rw [hcal]
    rw [hthr] at hmax
    simpa using hmax

/-- Witness for C7: the successful 251-sample run at the fresh state sets
the threshold used by the detector to 5. -/
theorem calibrate_policy_threshold_witness :
    (calibrate wstate6 0 251).1.detection_threshold = 5 :=
  (calibrate_policy_threshold wstate6 0 251 0 0 (by
    unfold calibration_data
    rw [if_neg (by decide)]
    simp [SAMPLE_RATE])).2.1
